import Mathlib

/-!
Verification of the VidGen segment pipeline and media-assembly engine.

This file gives a shallow embedding, in Lean, of the pipeline core of the
VidGen repository — the script parser (`vidgen/services/script_parser.py`),
the artifact generators (`vidgen/models/tts.py`, `vidgen/models/image.py`,
`vidgen/models/audio.py`), the video segment builder
(`vidgen/models/video.py`), the assembler
(`vidgen/services/video_assembler.py`) and the orchestration in
`vidgen/main.py` — and proves or refutes the specification's claims about it.

External effects (the Bark TTS engine, the Stable Diffusion pipeline,
ffmpeg subprocesses, the filesystem) are modelled by explicit environment
records whose fields give the outcome of each external call; the embedded
functions reproduce the Python control flow (including each `try/except`
handler) over those outcomes.  Python numeric timing values are modelled as
rationals, Python byte strings as lists of naturals below 256.
-/

namespace VidGen

/-! ## SHA-256, as used by `parse_detailed_script`

`script_parser.py` line 42 computes
`seed = int(hashlib.sha256(char_name.encode()).hexdigest(), 16) % (2**32)`.
We embed SHA-256 (FIPS 180-4) over byte lists, the hex digest string, and
Python's `int(·, 16)` parse, so that the seed definition below is a faithful
image of that line. -/

namespace SHA256

/-- Reduce to a 32-bit word, the `% 2**32` wrap of all SHA-256 arithmetic. -/
def wmask (x : Nat) : Nat := x % 2 ^ 32

/-- Addition of 32-bit words. -/
def wadd (x y : Nat) : Nat := (x + y) % 2 ^ 32

/-- Bitwise complement within 32 bits (valid for arguments below `2^32`). -/
def not32 (x : Nat) : Nat := x ^^^ (2 ^ 32 - 1)

/-- Right rotation of a 32-bit word by `n`. -/
def rotr (n x : Nat) : Nat := ((x >>> n) ||| (x <<< (32 - n))) % 2 ^ 32

/-- Choice function `Ch(x,y,z)`. -/
def ch (x y z : Nat) : Nat := (x &&& y) ^^^ (not32 x &&& z)

/-- Majority function `Maj(x,y,z)`. -/
def maj (x y z : Nat) : Nat := (x &&& y) ^^^ (x &&& z) ^^^ (y &&& z)

/-- Big sigma 0. -/
def bsig0 (x : Nat) : Nat := rotr 2 x ^^^ rotr 13 x ^^^ rotr 22 x

/-- Big sigma 1. -/
def bsig1 (x : Nat) : Nat := rotr 6 x ^^^ rotr 11 x ^^^ rotr 25 x

/-- Small sigma 0. -/
def ssig0 (x : Nat) : Nat := rotr 7 x ^^^ rotr 18 x ^^^ (x >>> 3)

/-- Small sigma 1. -/
def ssig1 (x : Nat) : Nat := rotr 17 x ^^^ rotr 19 x ^^^ (x >>> 10)

/-- The 64 SHA-256 round constants (FIPS 180-4 section 4.2.2, written in
decimal; the first is 0x428a2f98, the last 0xc67178f2). -/
def K : List Nat :=
  [1116352408, 1899447441, 3049323471, 3921009573, 961987163,
   1508970993, 2453635748, 2870763221, 3624381080, 310598401,
   607225278, 1426881987, 1925078388, 2162078206, 2614888103,
   3248222580, 3835390401, 4022224774, 264347078, 604807628,
   770255983, 1249150122, 1555081692, 1996064986, 2554220882,
   2821834349, 2952996808, 3210313671, 3336571891, 3584528711,
   113926993, 338241895, 666307205, 773529912, 1294757372,
   1396182291, 1695183700, 1986661051, 2177026350, 2456956037,
   2730485921, 2820302411, 3259730800, 3345764771, 3516065817,
   3600352804, 4094571909, 275423344, 430227734, 506948616,
   659060556, 883997877, 958139571, 1322822218, 1537002063,
   1747873779, 1955562222, 2024104815, 2227730452, 2361852424,
   2428436474, 2756734187, 3204031479, 3329325298]

/-- The eight-word SHA-256 working state. -/
structure Hs where
  a : Nat
  b : Nat
  c : Nat
  d : Nat
  e : Nat
  f : Nat
  g : Nat
  h : Nat
deriving DecidableEq, Repr

/-- The SHA-256 initial hash value (FIPS 180-4 section 5.3.3, in decimal;
the first word is 0x6a09e667, the last 0x5be0cd19). -/
def H0 : Hs :=
  ⟨1779033703, 3144134277, 1013904242, 2773480762,
   1359893119, 2600822924, 528734635, 1541459225⟩

/-- Big-endian serialization of a 64-bit length field into 8 bytes. -/
def be64 (n : Nat) : List Nat :=
  [(n >>> 56) &&& 255, (n >>> 48) &&& 255, (n >>> 40) &&& 255, (n >>> 32) &&& 255,
   (n >>> 24) &&& 255, (n >>> 16) &&& 255, (n >>> 8) &&& 255, n &&& 255]

/-- Big-endian serialization of a 32-bit word into 4 bytes. -/
def be32 (w : Nat) : List Nat :=
  [(w >>> 24) &&& 255, (w >>> 16) &&& 255, (w >>> 8) &&& 255, w &&& 255]

/-- Merkle–Damgård padding: append `0x80`, zeros and the 64-bit big-endian
bit length, reaching a multiple of 64 bytes (FIPS 180-4 section 5.1.1). -/
def pad (msg : List Nat) : List Nat :=
  let len := msg.length
  let zeros := (64 + 56 - (len + 1) % 64) % 64
  msg ++ [0x80] ++ List.replicate zeros 0 ++ be64 (8 * len)

/-- Group bytes into big-endian 32-bit words. -/
def toWords : List Nat → List Nat
  | b0 :: b1 :: b2 :: b3 :: rest =>
      ((b0 <<< 24) ||| (b1 <<< 16) ||| (b2 <<< 8) ||| b3) :: toWords rest
  | _ => []

/-- Extend the 16 block words to the 64-entry message schedule. -/
def extendW (ws : List Nat) : List Nat :=
  (List.range 48).foldl
    (fun acc _ =>
      let n := acc.length
      acc ++ [wadd (wadd (ssig1 (acc.getD (n - 2) 0)) (acc.getD (n - 7) 0))
                   (wadd (ssig0 (acc.getD (n - 15) 0)) (acc.getD (n - 16) 0))])
    ws

/-- One compression round, consuming one constant/schedule pair. -/
def round (s : Hs) (kw : Nat × Nat) : Hs :=
  let t1 := wadd (wadd s.h (bsig1 s.e)) (wadd (ch s.e s.f s.g) (wadd kw.1 kw.2))
  let t2 := wadd (bsig0 s.a) (maj s.a s.b s.c)
  ⟨wadd t1 t2, s.a, s.b, s.c, wadd s.d t1, s.e, s.f, s.g⟩

/-- Compress one 64-byte block into the running state. -/
def compress (st : Hs) (block : List Nat) : Hs :=
  let w := extendW (toWords block)
  let t := (K.zip w).foldl round st
  ⟨wadd st.a t.a, wadd st.b t.b, wadd st.c t.c, wadd st.d t.d,
   wadd st.e t.e, wadd st.f t.f, wadd st.g t.g, wadd st.h t.h⟩

/-- Fold the compression function over consecutive 64-byte blocks; the fuel
argument bounds the number of blocks and keeps the recursion structural. -/
def processBlocksAux : Nat → Hs → List Nat → Hs
  | 0, st, _ => st
  | _ + 1, st, [] => st
  | fuel + 1, st, l => processBlocksAux fuel (compress st (l.take 64)) (l.drop 64)

/-- Fold the compression function over consecutive 64-byte blocks. -/
def processBlocks (st : Hs) (l : List Nat) : Hs :=
  processBlocksAux (l.length / 64 + 1) st l

/-- The SHA-256 digest of a byte list, as its 32 digest bytes. -/
def sha256 (msg : List Nat) : List Nat :=
  let st := processBlocks H0 (pad msg)
  ([st.a, st.b, st.c, st.d, st.e, st.f, st.g, st.h]).flatMap be32

end SHA256

/-! ## Hex digests, `int(·, 16)` and UTF-8, completing the seed embedding -/

/-- Lowercase hex digit for a value below 16, as `hexdigest` prints it. -/
def hexDigit (d : Nat) : Char :=
  "0123456789abcdef".toList.getD d '0'

/-- Value of a lowercase hex digit, as `int(·, 16)` reads it. -/
def hexVal (c : Char) : Nat :=
  match c with
  | '0' => 0 | '1' => 1 | '2' => 2 | '3' => 3 | '4' => 4
  | '5' => 5 | '6' => 6 | '7' => 7 | '8' => 8 | '9' => 9
  | 'a' => 10 | 'b' => 11 | 'c' => 12 | 'd' => 13 | 'e' => 14 | 'f' => 15
  | _ => 0

/-- Two hex characters of one byte, high nibble first. -/
def byteHex (b : Nat) : List Char := [hexDigit (b / 16), hexDigit (b % 16)]

/-- Python's `hashlib` `hexdigest()` string of a digest byte list. -/
def hexdigest (bytes : List Nat) : String := String.mk (bytes.flatMap byteHex)

/-- Python's `int(s, 16)`: fold hex digits into a natural number. -/
def intHex (s : String) : Nat := s.data.foldl (fun a c => 16 * a + hexVal c) 0

/-- A byte list read as one big-endian unsigned integer. -/
def beNat (bytes : List Nat) : Nat := bytes.foldl (fun a b => 256 * a + b) 0

/-- UTF-8 encoding of one character, as Python's `str.encode()` produces. -/
def utf8Char (c : Char) : List Nat :=
  let n := c.toNat
  if n < 0x80 then [n]
  else if n < 0x800 then
    [0xC0 ||| (n >>> 6), 0x80 ||| (n &&& 0x3F)]
  else if n < 0x10000 then
    [0xE0 ||| (n >>> 12), 0x80 ||| ((n >>> 6) &&& 0x3F), 0x80 ||| (n &&& 0x3F)]
  else
    [0xF0 ||| (n >>> 18), 0x80 ||| ((n >>> 12) &&& 0x3F),
     0x80 ||| ((n >>> 6) &&& 0x3F), 0x80 ||| (n &&& 0x3F)]

/-- UTF-8 encoding of a string, Python's `name.encode()`. -/
def utf8 (s : String) : List Nat := s.data.flatMap utf8Char

/-- The character seed of `script_parser.py` line 42:
`int(hashlib.sha256(char_name.encode()).hexdigest(), 16) % (2**32)`. -/
def charSeed (char_name : String) : Nat :=
  intHex (hexdigest (SHA256.sha256 (utf8 char_name))) % 2 ^ 32

/-- Modelled from the spec (section 4.2): the seed as "first 32 bits of
SHA-256(name) mod 2^32", reading the digest as a big unsigned integer, so
its top 32 bits; stated only to compare against `charSeed`. -/
def specSeedFirst32 (char_name : String) : Nat :=
  (beNat (SHA256.sha256 (utf8 char_name)) / 2 ^ 224) % 2 ^ 32

/-! ## Python string primitives

Core `String` operations in Lean are byte-position based and do not reduce
inside the kernel, so the Python string operations the parser uses are
embedded here over character lists. -/

/-- Whitespace removed by Python's `str.strip()` (the ASCII range; the
parser only ever strips character names and descriptions). -/
def pyIsSpace (c : Char) : Bool :=
  c == ' ' || c == '\t' || c == '\n' || c == '\x0d' || c == '\x0b' || c == '\x0c'

/-- Python `str.strip()` on a character list. -/
def pyStripList (cs : List Char) : List Char :=
  ((cs.dropWhile pyIsSpace).reverse.dropWhile pyIsSpace).reverse

/-- Python `str.strip()`. -/
def pyStrip (s : String) : String := String.mk (pyStripList s.data)

/-- Python `str.lower()` (ASCII case folding). -/
def pyLower (s : String) : String := String.mk (s.data.map Char.toLower)

/-- Whether the first character list is a leading run of the second. -/
def leadsWith : List Char → List Char → Bool
  | [], _ => true
  | _ :: _, [] => false
  | a :: as, b :: bs => a == b && leadsWith as bs

/-- Whether the first character list occurs contiguously in the second. -/
def occursIn (needle : List Char) : List Char → Bool
  | [] => leadsWith needle []
  | b :: bs => leadsWith needle (b :: bs) || occursIn needle bs

/-- Python's `needle in haystack` substring test. -/
def pyIn (needle haystack : String) : Bool := occursIn needle.data haystack.data

/-! ## Exceptions

Python exception classes reachable in the embedded fragment. -/

/-- Exceptions the embedded code can raise.  The `invalidTimingError`
constructor stands for the `InvalidTimingError` class that the
specification names; the repository defines no such class
(`vidgen/core/exceptions.py` has none) and no embedded code path produces
it — it exists here only so the specification's claim mentioning it can be
stated and compared against what the code actually raises. -/
inductive PyExc where
  | valueError (msg : String)
  | typeError
  | calledProcessError
  | invalidTimingError
deriving DecidableEq, Repr

/-! ## Raw segments and validation (`script_parser.py`)

A raw segment record is a string-keyed JSON object; the fields the pipeline
reads are modelled as optional (absent key = `none`).  Timing values are
modelled as rationals: the claims under test concern exact numeric
comparisons, for which `float` conversion of JSON numbers is faithfully
rational.  `image_desc` and `audio_desc` model the dict keys `"image"` and
`"audio"`. -/

/-- One raw segment record from the expanded-script JSON. -/
structure Seg where
  start : Option ℚ := none
  end_ : Option ℚ := none
  narration : Option String := none
  image_desc : Option String := none
  audio_desc : Option String := none
  scene : Option String := none
deriving DecidableEq, Repr

/-- The `validate_segment` check of `script_parser.py` lines 8-16: require
the `start`, `end` and `narration` keys in that order, then raise the
builtin `ValueError` when `float(end) <= float(start)`. -/
def validate_segment (seg : Seg) : Except PyExc Unit :=
  if seg.start.isNone then .error (.valueError "Missing required field: start")
  else if seg.end_.isNone then .error (.valueError "Missing required field: end")
  else if seg.narration.isNone then .error (.valueError "Missing required field: narration")
  else if seg.end_.getD 0 ≤ seg.start.getD 0 then
    .error (.valueError "End time must be greater than start time")
  else .ok ()

/-! ## Character identities (`script_parser.py` lines 36-48) -/

/-- The character-name derivation of line 40:
`char_desc.strip().split(":")[0] if ":" in char_desc else char_desc.strip()`
(the split head is the run of characters before the first colon). -/
def charNameOf (char_desc : String) : String :=
  if char_desc.data.any (fun c => c == ':') then
    String.mk ((pyStripList char_desc.data).takeWhile (fun c => c != ':'))
  else pyStrip char_desc

/-- One `character_faces` entry: the dict
`{"character": name, "face_prompt": desc, "seed": seed}`. -/
structure Face where
  character : String
  face_prompt : String
  seed : Nat
deriving DecidableEq, Repr

/-- First-match lookup in the `character_faces` mapping (modelled as an
association list in insertion order, as `dict` iteration preserves it). -/
def lookupFace : List (String × Face) → String → Option Face
  | [], _ => none
  | (k, f) :: rest, n => if k = n then some f else lookupFace rest n

/-- The result dict of `parse_detailed_script`: the `video` commands (the
raw segment together with its attached `character_face`), the `tts` and
`audio` command strings, and the `image` commands (the distinct character
faces in first-occurrence order). -/
structure ParseResult where
  video : List (Seg × Option Face)
  tts : List String
  audio_cmds : List String
  image : List Face
deriving DecidableEq, Repr

/-- The per-segment loop of `parse_detailed_script` (lines 36-60): validate
the segment, derive and memoize its character face, and run the pydantic
`ScriptSegment`/`Character` construction.  The pydantic `Character`
validator raises `ValueError` when the character name strips to the empty
string.  The `ScriptSegment` duration validator checks
`float(end) - float(start) <= 0`, which over the rationals is
`end <= start`, the form used here; it is unreachable after
`validate_segment` but embedded for fidelity.  Returns the annotated
segments and the final `character_faces` map. -/
def parseLoop : List Seg → List (String × Face) →
    Except PyExc (List (Seg × Option Face) × List (String × Face))
  | [], faces => .ok ([], faces)
  | seg :: rest, faces =>
    match validate_segment seg with
    | .error e => .error e
    | .ok () =>
      let char_desc := seg.image_desc.getD ""
      if char_desc = "" then
        if (seg.end_.getD 0) ≤ (seg.start.getD 0) then
          .error (.valueError "Duration must be positive")
        else
          match parseLoop rest faces with
          | .error e => .error e
          | .ok (annotated, faces') => .ok ((seg, none) :: annotated, faces')
      else
        let char_name := charNameOf char_desc
        let (face, faces1) :=
          match lookupFace faces char_name with
          | some f => (f, faces)
          | none =>
            let f : Face := ⟨char_name, char_desc, charSeed char_name⟩
            (f, faces ++ [(char_name, f)])
        if pyStrip face.character = "" then
          .error (.valueError "Character name cannot be empty")
        else if (seg.end_.getD 0) ≤ (seg.start.getD 0) then
          .error (.valueError "Duration must be positive")
        else
          match parseLoop rest faces1 with
          | .error e => .error e
          | .ok (annotated, faces') => .ok ((seg, some face) :: annotated, faces')

/-- The `parse_detailed_script` entry point: an empty segment list raises
(the `if not segments` check), otherwise run the loop and collect the four
command lists (`tts` takes each segment's narration, `audio` each
segment's audio description, `image` the distinct faces in
first-occurrence order). -/
def parse_detailed_script (segments : List Seg) : Except PyExc ParseResult :=
  if segments = [] then .error (.valueError "Invalid JSON in detailed script")
  else
    match parseLoop segments [] with
    | .error e => .error e
    | .ok (annotated, faces) =>
      .ok ⟨annotated,
           annotated.map (fun p => p.1.narration.getD ""),
           annotated.map (fun p => p.1.audio_desc.getD ""),
           faces.map Prod.snd⟩

/-! ## Speech generator (`models/tts.py`)

External effects are abstracted by an environment giving the outcome of
each external call; the embedded function reproduces the `try/except`
routing of the source. -/

/-- Outcome of the Bark text-to-speech engine: the import, generation and
file write of `generate_tts_audio`'s `try` block (`.error` covers both the
`ImportError` and the generic failure the source catches). -/
structure TTSEnv where
  bark : String → Except PyExc String

/-- The `generate_tts_audio` function: empty or whitespace-only text
returns `None` up front; any failure of the Bark block is caught and
converted to `None`; success returns the written file path. -/
def generate_tts_audio (env : TTSEnv) (tts_command : String) : Except PyExc (Option String) :=
  if tts_command = "" ∨ pyStrip tts_command = "" then .ok none
  else
    match env.bark tts_command with
    | .ok path => .ok (some path)
    | .error _ => .ok none

/-! ## Image generator (`models/image.py`) -/

/-- The `image_command` argument: either a plain prompt string or a
command dict (the parser's `character`/`face_prompt`/`seed` fields, each
possibly absent). -/
inductive ImageCommand where
  | str (s : String)
  | dict (character : Option String) (face_prompt : Option String) (seed : Option Nat)
deriving DecidableEq, Repr

/-- Outcome of the Stable Diffusion block of `generate_character_image`:
torch import, pipeline load (`get_image_pipeline`, which re-raises load
failures into this block), generation and image save, keyed by the
resolved prompt and seed. -/
structure ImageEnv where
  pipe : String → Nat → Except PyExc String

/-- The `generate_character_image` function: resolve the prompt
(`face_prompt`, else `character`, else the plain string) and the seed
(the dict seed wins over the argument); a prompt that strips to empty
returns the `"placeholder_image.png"` sentinel; any failure of the
generation block is caught and also returns the sentinel. -/
def generate_character_image (env : ImageEnv) (image_command : ImageCommand)
    (seed : Nat) : Except PyExc String :=
  let resolved : String × Nat :=
    match image_command with
    | .dict ch fp sd => (fp.getD (ch.getD ""), sd.getD seed)
    | .str s => (s, seed)
  if pyStrip resolved.1 = "" then .ok "placeholder_image.png"
  else
    match env.pipe resolved.1 resolved.2 with
    | .ok path => .ok path
    | .error _ => .ok "placeholder_image.png"

/-! ## Background-audio generator (`models/audio.py`) -/

/-- The three audio types `_analyze_audio_command` classifies into. -/
inductive AudioType where
  | silence
  | ambient
  | music
deriving DecidableEq, Repr

/-- External outcomes for the background-audio generator: the ffmpeg
synthesis runs of `_generate_silence`, `_generate_ambient_audio` and
`_generate_music_audio` (keyed by output path and duration), and the
result of the `re.search` duration extraction of `_analyze_audio_command`
(abstracted: the regex only selects the synthesized clip's length, which
no claim constrains). -/
structure AudioEnv where
  silenceRun : String → ℚ → Except PyExc String
  ambientRun : String → ℚ → Except PyExc String
  musicRun : String → ℚ → Except PyExc String
  parsedDuration : String → Option ℚ
  outPath : String

/-- The keyword classification of `_analyze_audio_command`: `silence` and
`quiet` give silence, the music words give music, everything else stays at
the `ambient` default (the explicit ambient keywords select what the
default already is). -/
def analyzeAudioType (command_lower : String) : AudioType :=
  if pyIn "silence" command_lower || pyIn "quiet" command_lower then .silence
  else if pyIn "music" command_lower || pyIn "melody" command_lower ||
      pyIn "song" command_lower || pyIn "tune" command_lower then .music
  else .ambient

/-- The `_generate_silence` helper: one ffmpeg run, raising on failure. -/
def gen_silence (env : AudioEnv) (output_path : String) (duration : ℚ) :
    Except PyExc String :=
  env.silenceRun output_path duration

/-- The `_generate_ambient_audio` helper: try the ambient synthesis; on
failure fall back to `_generate_silence` at the same path (whose own
failure propagates out of this helper). -/
def gen_ambient (env : AudioEnv) (output_path : String) (duration : ℚ) :
    Except PyExc String :=
  match env.ambientRun output_path duration with
  | .ok p => .ok p
  | .error _ => gen_silence env output_path duration

/-- The `_generate_music_audio` helper: try the music synthesis; on
failure fall back to `_generate_ambient_audio`. -/
def gen_music (env : AudioEnv) (output_path : String) (duration : ℚ) :
    Except PyExc String :=
  match env.musicRun output_path duration with
  | .ok p => .ok p
  | .error _ => gen_ambient env output_path duration

/-- The outer exception handlers of `generate_background_audio`: a
successful synthesis is returned; any failure is caught and answered with
a silent fallback clip at `silence_fallback.wav`; if even that raises, the
bare `except` returns `None`. -/
def bgFallback (env : AudioEnv) (attempt : Except PyExc String) :
    Except PyExc (Option String) :=
  match attempt with
  | .ok p => .ok (some p)
  | .error _ =>
    match env.silenceRun "silence_fallback.wav" 5 with
    | .ok p => .ok (some p)
    | .error _ => .ok none

/-- The `generate_background_audio` function: empty input becomes
`"silence"`; classify and synthesize; route the outcome through the
outer handlers (`bgFallback`). -/
def generate_background_audio (env : AudioEnv) (audio_command : String) :
    Except PyExc (Option String) :=
  let cmd := if audio_command = "" ∨ pyStrip audio_command = "" then "silence" else audio_command
  let lower := pyLower cmd
  let duration := (env.parsedDuration lower).getD 5
  let attempt : Except PyExc String :=
    match analyzeAudioType lower with
    | .silence => gen_silence env env.outPath duration
    | .ambient => gen_ambient env env.outPath duration
    | .music => gen_music env env.outPath duration
  bgFallback env attempt

/-! ## Video segment builder (`models/video.py`) -/

/-- The run-scoped face cache: `(character, seed) -> image_path`, a Python
dict modelled as an association list with overwrite-on-assign. -/
abbrev FaceCache := List ((String × Nat) × String)

/-- First-match lookup in the face cache. -/
def lookupC : FaceCache → String × Nat → Option String
  | [], _ => none
  | (k, v) :: rest, key => if k = key then some v else lookupC rest key

/-- Dict assignment `face_cache[cache_key] = image_path`. -/
def cacheInsert : FaceCache → String × Nat → String → FaceCache
  | [], key, v => [(key, v)]
  | (k, v') :: rest, key, v =>
    if k = key then (k, v) :: rest else (k, v') :: cacheInsert rest key v

/-- Environment of the video segment builder: the generator environments
it calls through, the outcome of `create_silent_audio` (a path, or `None`
when its ffmpeg run fails), the result of `create_fallback_image` (a real
file or, when PIL is unavailable or errors, the placeholder sentinel), the
outcome of the final ffmpeg mux, and the unique output path. -/
structure VideoEnv where
  image : ImageEnv
  tts : TTSEnv
  silent : ℚ → Option String
  fallbackImage : String
  muxOk : Bool
  outPath : String

/-- Decidable equality for `Except`, so traces evaluate under `decide`. -/
instance instDecEqExcept {ε α : Type} [DecidableEq ε] [DecidableEq α] :
    DecidableEq (Except ε α) := fun x y =>
  match x, y with
  | .ok a, .ok b =>
    match decEq a b with
    | isTrue h => isTrue (h ▸ rfl)
    | isFalse h => isFalse (fun hx => h (Except.ok.inj hx))
  | .error a, .error b =>
    match decEq a b with
    | isTrue h => isTrue (h ▸ rfl)
    | isFalse h => isFalse (fun hx => h (Except.error.inj hx))
  | .ok _, .error _ => isFalse (fun hx => Except.noConfusion hx)
  | .error _, .ok _ => isFalse (fun hx => Except.noConfusion hx)

/-- Trace of one `generate_video_segment` call: the returned value or
raised exception, the face cache afterwards, the `(character, seed)` pairs
for which the image generator was invoked, the resolved image path
(before fallback substitution), the image path handed to the mux (after
fallback substitution), the audio path handed to the mux (after silent
substitution), and the computed clip duration. -/
structure BuildResult where
  result : Except PyExc String
  cache : Option FaceCache
  calls : List (String × Nat)
  imagePath : String
  imageUsed : String
  audioPath : Option String
  duration : ℚ
deriving DecidableEq

/-- The clip-duration computation of `generate_video_segment` lines 27-30:
`float(end) - float(start)` with 0 defaults for missing keys, replaced by
the caller's default when non-positive. -/
def clipDuration (seg : Seg) (default_duration : ℚ) : ℚ :=
  let d0 := seg.end_.getD 0 - seg.start.getD 0
  if d0 ≤ 0 then default_duration else d0

/-- The image-resolution step of `generate_video_segment` lines 38-48:
when a cache is present and the character name non-empty, a cached path is
reused without a generator call; on a miss `generate_character_image`
runs, and a usable result (non-empty and not the placeholder sentinel) is
written back to the cache, a failed one is not.  Without a cache or a name
the generator always runs.  Returns the resolved path (or the propagated
exception), the cache afterwards, and the `(character, seed)` pairs for
which the generator was invoked. -/
def resolveImage (ienv : ImageEnv) (face_cache : Option FaceCache)
    (char_name face_prompt : String) (face_seed : Nat) :
    Except PyExc String × Option FaceCache × List (String × Nat) :=
  match face_cache with
  | some fc =>
    if char_name = "" then
      (generate_character_image ienv (.str face_prompt) face_seed, some fc,
       [(char_name, face_seed)])
    else
      match lookupC fc (char_name, face_seed) with
      | some p => (.ok p, some fc, [])
      | none =>
        match generate_character_image ienv (.str face_prompt) face_seed with
        | .ok p =>
          (.ok p,
           some (if p ≠ "" ∧ p ≠ "placeholder_image.png"
                 then cacheInsert fc (char_name, face_seed) p else fc),
           [(char_name, face_seed)])
        | .error e => (.error e, some fc, [(char_name, face_seed)])
  | none =>
    (generate_character_image ienv (.str face_prompt) face_seed, none,
     [(char_name, face_seed)])

/-- The substitution and mux steps of `generate_video_segment` lines
53-88: missing or placeholder images are replaced by
`create_fallback_image`; `None` narration audio is replaced by
`create_silent_audio(duration)` — if that also yields `None`, the ffmpeg
command receives `None` and raises `TypeError`.  The final mux returns
the output path on success and raises `CalledProcessError` on failure
(both re-raised by the source's handlers). -/
def buildFinish (env : VideoEnv) (duration : ℚ) (fc' : Option FaceCache)
    (calls : List (String × Nat)) (image_path : String)
    (audio_opt : Option String) : BuildResult :=
  let image_used := if image_path = "" ∨ image_path = "placeholder_image.png"
                    then env.fallbackImage else image_path
  match (match audio_opt with | some a => some a | none => env.silent duration) with
  | none => ⟨.error .typeError, fc', calls, image_path, image_used, none, duration⟩
  | some a =>
    if env.muxOk then
      ⟨.ok env.outPath, fc', calls, image_path, image_used, some a, duration⟩
    else ⟨.error .calledProcessError, fc', calls, image_path, image_used, some a, duration⟩

/-- The `generate_video_segment` function (lines 25-93), composing
`clipDuration`, `resolveImage`, the narration call to
`generate_tts_audio`, and `buildFinish`.  The `character_face` dict's
`.get` defaults give character name `""`, prompt `""` and seed 42 when
the segment carries no face. -/
def generate_video_segment (env : VideoEnv) (seg : Seg) (face : Option Face)
    (face_cache : Option FaceCache) (default_duration : ℚ) : BuildResult :=
  let narration := seg.narration.getD ""
  let duration := clipDuration seg default_duration
  let char_name := (face.map Face.character).getD ""
  let face_prompt := (face.map Face.face_prompt).getD ""
  let face_seed := (face.map Face.seed).getD 42
  match resolveImage env.image face_cache char_name face_prompt face_seed with
  | (.error e, fc', calls) => ⟨.error e, fc', calls, "", "", none, duration⟩
  | (.ok image_path, fc', calls) =>
    match generate_tts_audio env.tts narration with
    | .error e => ⟨.error e, fc', calls, image_path, "", none, duration⟩
    | .ok audio_opt => buildFinish env duration fc' calls image_path audio_opt

/-! ## Orchestrator stages (`main.py`, `generate_video_async`)

The orchestrator starts each run with a fresh empty `face_cache`, builds
all video segments against it through the `safe_generate_video_segment`
wrapper (exceptions become `None` results), and later generates one
character image per parsed `image` command through
`safe_generate_character_image`.  The executor fan-out shares the cache
between segment builds; the sequential fold modelled here is the most
favorable interleaving for the caching claims — concurrent interleavings
can only add further generator calls. -/

/-- The video-segment stage: fold `safe_generate_video_segment` over the
parsed video commands, threading the shared face cache and collecting the
image-generator invocations. -/
def videoStage (env : VideoEnv) : List (Seg × Option Face) → Option FaceCache → ℚ →
    List (Option String) × Option FaceCache × List (String × Nat)
  | [], fc, _ => ([], fc, [])
  | (seg, face) :: rest, fc, d =>
    let r := generate_video_segment env seg face fc d
    let res := videoStage env rest r.cache d
    ((match r.result with | .ok p => some p | .error _ => none) :: res.1,
     res.2.1, r.calls ++ res.2.2)

/-- The character-image stage: one `generate_character_image` call per
parsed image command (the command dict carries the character's own seed,
which overrides the orchestrator's seed argument). -/
def imageStage (env : ImageEnv) (image_cmds : List Face) (seed : Nat) :
    List (Option String) :=
  image_cmds.map fun f =>
    match generate_character_image env
        (.dict (some f.character) (some f.face_prompt) (some f.seed)) seed with
    | .ok p => some p
    | .error _ => none

/-- The `(character, seed)` pair served by each character-image-stage
invocation: the command dict always carries both fields, so the dict seed
wins over the orchestrator seed. -/
def imageStagePairs (image_cmds : List Face) : List (String × Nat) :=
  image_cmds.map fun f => (f.character, f.seed)

/-- All image-generator invocations of one run, labelled by the
`(character_name, seed)` pair each serves: the segment-building stage
(run against the fresh shared cache) followed by the character-image
stage. -/
def pipelineImagePairs (env : VideoEnv) (video_cmds : List (Seg × Option Face))
    (image_cmds : List Face) (d : ℚ) : List (String × Nat) :=
  (videoStage env video_cmds (some []) d).2.2 ++ imageStagePairs image_cmds

/-- Occurrences of one `(character, seed)` pair in a call list. -/
def countPair (l : List (String × Nat)) (key : String × Nat) : Nat :=
  l.countP fun x => decide (x = key)

/-! ## Multi-segment assembler (`services/video_assembler.py`)

The assembler's output is described by a small syntax of media values:
what was concatenated, which audio track (if any) was muxed on, and which
character overlays were applied.  External ffmpeg outcomes are environment
flags; every failure is caught by the source's outer handler, which
returns `None`. -/

/-- The final audio track of step 2 of assembly: pairwise-mixed
narration/background tracks concatenated in order, or the narration tracks
concatenated directly. -/
inductive FinalAudio where
  | mixedTrack (pairs : List (String × String))
  | ttsTrack (tracks : List String)
deriving DecidableEq, Repr

/-- The assembled artifact: the `no_video_segments.mp4` failure sentinel,
the concatenated clips copied unchanged, the concatenated clips muxed with
a final audio track, or a result with character thumbnails overlaid. -/
inductive Media where
  | sentinel
  | plain (clips : List String)
  | muxed (clips : List String) (track : FinalAudio)
  | overlaid (base : Media) (images : List String)
deriving DecidableEq, Repr

/-- Whether an assembled artifact carries a muxed audio track. -/
def hasAudioTrack : Media → Bool
  | .sentinel => false
  | .plain _ => false
  | .muxed _ _ => true
  | .overlaid base _ => hasAudioTrack base

/-- External ffmpeg outcomes of one `assemble_video` call: the video
concatenation, the narration/background mixing runs, the audio
concatenation, the final mux, and the overlay run. -/
structure AsmEnv where
  concatOk : Bool
  mixOk : Bool
  audioConcatOk : Bool
  muxOk : Bool
  overlayOk : Bool

/-- The mux/copy and overlay steps of `assemble_video`: mux the audio
track on when there is one, else copy the concatenated video unchanged
(the source's `import shutil` sits in this no-audio branch, making
`shutil` a local name assigned only there).  When character images are
present the overlay runs: a failed overlay run is caught and the
pre-overlay result kept; a successful one then calls `shutil.copy2`,
which in the muxed-audio case hits the unassigned local `shutil` and
raises `UnboundLocalError`, caught by the outer handler (which returns
`None`). -/
def assembleFinish (env : AsmEnv) (video_segments character_images : List String) :
    Option FinalAudio → Option Media
  | some a =>
    if !env.muxOk then none
    else
      let base := Media.muxed video_segments a
      if character_images = [] then some base
      else if env.overlayOk then none
      else some base
  | none =>
    let base := Media.plain video_segments
    if character_images = [] then some base
    else if env.overlayOk then some (.overlaid base character_images)
    else some base

/-- The `assemble_video` function.  An empty clip list returns the
`no_video_segments.mp4` sentinel before any work.  Otherwise concatenate
the clips; then, when both narration and background tracks exist, mix
them pairwise over `zip` and concatenate the mixed results; when only
narration tracks exist, concatenate them directly; else produce no audio
track.  Finish by muxing/copying and overlaying via `assembleFinish`.
Every exception of the `try` body is caught by the outer handlers, which
return `None`. -/
def assemble_video (env : AsmEnv) (video_segments tts_audios background_audios
    character_images : List String) : Option Media :=
  if video_segments = [] then some .sentinel
  else if !env.concatOk then none
  else if tts_audios ≠ [] ∧ background_audios ≠ [] then
    if !env.mixOk ∨ !env.audioConcatOk then none
    else assembleFinish env video_segments character_images
      (some (.mixedTrack (tts_audios.zip background_audios)))
  else if tts_audios ≠ [] then
    if !env.audioConcatOk then none
    else assembleFinish env video_segments character_images (some (.ttsTrack tts_audios))
  else assembleFinish env video_segments character_images none

/-! ## Specification predicates and concrete demonstration inputs -/

/-- The first non-empty image description in a list that yields the given
character name; its text is the prompt the first occurrence registers. -/
def firstDescFor (n : String) : List String → Option String
  | [] => none
  | d :: ds => if d ≠ "" ∧ charNameOf d = n then some d else firstDescFor n ds

/-- A face cache is valid when every stored path is usable: non-empty and
not the `"placeholder_image.png"` sentinel. -/
def ValidCache (fc : FaceCache) : Prop :=
  ∀ k p, lookupC fc k = some p → p ≠ "" ∧ p ≠ "placeholder_image.png"

/-- A concrete builder environment for witnesses: every external call
succeeds. -/
def demoVideoEnv : VideoEnv :=
  ⟨⟨fun _ _ => .ok "img.png"⟩, ⟨fun _ => .ok "voice.wav"⟩, fun _ => some "silent.wav",
   "fallback.png", true, "out.mp4"⟩

/-- A builder environment whose image pipeline fails (so the generator
returns the placeholder sentinel). -/
def demoFailImageVideoEnv : VideoEnv :=
  ⟨⟨fun _ _ => .error .calledProcessError⟩, ⟨fun _ => .ok "voice.wav"⟩,
   fun _ => some "silent.wav", "fallback.png", true, "out.mp4"⟩

/-- A builder environment whose speech engine fails (so the speech
generator returns `None`). -/
def demoNoSpeechVideoEnv : VideoEnv :=
  ⟨⟨fun _ _ => .ok "img.png"⟩, ⟨fun _ => .error (.valueError "bark failed")⟩,
   fun _ => some "silent.wav", "fallback.png", true, "out.mp4"⟩

/-- A concrete two-segment script in which both segments describe the same
character `"Alice"` with different description texts. -/
def demoSeg1 : Seg := ⟨some 0, some 5, some "hi", some "Alice: kind face", none, none⟩

/-- The second demo segment: same character name, different prompt text. -/
def demoSeg2 : Seg := ⟨some 5, some 9, some "yo", some "Alice: evil twin", none, none⟩

/-- The demo script: two segments, one shared character. -/
def demoSegs : List Seg := [demoSeg1, demoSeg2]

/-- The shared face the parse of `demoSegs` creates: name `"Alice"`,
the first occurrence's full description, and `charSeed "Alice"`
(which evaluates to 1771712579). -/
def demoFace : Face := ⟨"Alice", "Alice: kind face", 1771712579⟩

/-- The parse result of `demoSegs`. -/
def demoParse : ParseResult :=
  ⟨[(demoSeg1, some demoFace), (demoSeg2, some demoFace)],
   ["hi", "yo"], ["", ""], [demoFace]⟩

/-! ## Helper lemmas -/

/-- Hex digits round-trip on nibble values. -/
theorem hexVal_hexDigit {d : Nat} (hd : d < 16) : hexVal (hexDigit d) = d := by
  interval_cases d <;> rfl

/-- Folding the hex parse over one byte's two digits appends the byte. -/
theorem foldl_byteHex {b : Nat} (hb : b < 256) (a : Nat) :
    List.foldl (fun x c => 16 * x + hexVal c) a (byteHex b) = 256 * a + b := by
  simp only [byteHex, List.foldl_cons, List.foldl_nil]
  rw [hexVal_hexDigit (by omega), hexVal_hexDigit (by omega)]
  omega

/-- Parsing the hex rendering of a byte list recovers its big-endian
value, for any accumulator. -/
theorem foldl_flatMap_byteHex :
    ∀ (bs : List Nat), (∀ b ∈ bs, b < 256) → ∀ (a : Nat),
      List.foldl (fun x c => 16 * x + hexVal c) a (bs.flatMap byteHex) =
      List.foldl (fun x b => 256 * x + b) a bs
  | [], _, a => rfl
  | b :: rest, h, a => by
    simp only [List.flatMap_cons, List.foldl_append, List.foldl_cons]
    rw [foldl_byteHex (h b (List.mem_cons_self b rest)) a]
    exact foldl_flatMap_byteHex rest (fun x hx => h x (List.mem_cons_of_mem b hx)) _

/-- Big-endian serialization of a word produces bytes below 256. -/
theorem mem_be32_lt {b w : Nat} (hb : b ∈ SHA256.be32 w) : b < 256 := by
  simp only [SHA256.be32, List.mem_cons, List.not_mem_nil, or_false] at hb
  rcases hb with rfl | rfl | rfl | rfl <;> exact Nat.lt_succ_of_le Nat.and_le_right

/-- Every SHA-256 digest byte is below 256. -/
theorem sha256_bytes_lt {b : Nat} {msg : List Nat} (hb : b ∈ SHA256.sha256 msg) :
    b < 256 := by
  simp only [SHA256.sha256, List.mem_flatMap] at hb
  obtain ⟨w, -, hw⟩ := hb
  exact mem_be32_lt hw

/-- The duration field of `buildFinish` is its duration argument. -/
theorem buildFinish_duration (env : VideoEnv) (dur : ℚ) (fc' : Option FaceCache)
    (calls : List (String × Nat)) (p : String) (a : Option String) :
    (buildFinish env dur fc' calls p a).duration = dur := by
  rcases a with _ | x
  · rcases h : env.silent dur with _ | y
    · simp [buildFinish, h]
    · by_cases hm : env.muxOk <;> simp [buildFinish, h, hm]
  · by_cases hm : env.muxOk <;> simp [buildFinish, hm]

/-- The clip duration computed by `generate_video_segment` is
`clipDuration`, independent of everything else in the environment and
command. -/
theorem generate_video_segment_duration_eq (env : VideoEnv) (seg : Seg)
    (face : Option Face) (fc : Option FaceCache) (d : ℚ) :
    (generate_video_segment env seg face fc d).duration = clipDuration seg d := by
  simp only [generate_video_segment]
  rcases h : resolveImage env.image fc ((face.map Face.character).getD "")
      ((face.map Face.face_prompt).getD "") ((face.map Face.seed).getD 42) with ⟨res, fc', cs⟩
  rcases res with e | p
  · simp [h]
  · rcases h2 : generate_tts_audio env.tts (seg.narration.getD "") with e2 | ao
    · simp [h, h2]
    · simp [h, h2, buildFinish_duration]

/-- An `assembleFinish` run without an audio track never produces a muxed
result: the output is the plain copy, possibly with overlays. -/
theorem assembleFinish_none_noAudio (env : AsmEnv) (vs imgs : List String) (m : Media)
    (h : assembleFinish env vs imgs none = some m) : hasAudioTrack m = false := by
  by_cases hi : imgs = []
  · simp [assembleFinish, hi] at h
    simp [← h, hasAudioTrack]
  · by_cases ho : env.overlayOk
    · simp [assembleFinish, hi, ho] at h
      simp [← h, hasAudioTrack]
    · simp [assembleFinish, hi, ho] at h
      simp [← h, hasAudioTrack]

/-- A successful lookup survives appending entries on the right. -/
theorem lookupFace_append_some {fs : List (String × Face)} {n : String} {f : Face}
    (h : lookupFace fs n = some f) (l : List (String × Face)) :
    lookupFace (fs ++ l) n = some f := by
  induction fs with
  | nil => simp [lookupFace] at h
  | cons kv rest ih =>
    rcases kv with ⟨k, g⟩
    by_cases hk : k = n
    · simpa [lookupFace, hk] using by simpa [lookupFace, hk] using h
    · simp only [lookupFace, if_neg hk] at h
      simpa [lookupFace, hk] using ih h

/-- A failed lookup delegates to the appended entries. -/
theorem lookupFace_append_none {fs : List (String × Face)} {n : String}
    (h : lookupFace fs n = none) (l : List (String × Face)) :
    lookupFace (fs ++ l) n = lookupFace l n := by
  induction fs with
  | nil => rfl
  | cons kv rest ih =>
    rcases kv with ⟨k, g⟩
    by_cases hk : k = n
    · simp [lookupFace, hk] at h
    · simp only [lookupFace, if_neg hk] at h
      simpa [lookupFace, hk] using ih h

/-- A segment that passes validation has `end > start` (so the redundant
pydantic duration check can never fire). -/
theorem validate_segment_ok_not_le {seg : Seg} (h : validate_segment seg = .ok ()) :
    ¬ (seg.end_.getD 0 ≤ seg.start.getD 0) := by
  intro hle
  unfold validate_segment at h
  repeat' split at h
  all_goals simp_all

/-- The induction backbone of the face-sharing invariant: a successful
`parseLoop` run (1) annotates exactly the input segments, (2) preserves
every already-registered face, (3) maps each name unseen on entry to the
face built from its first qualifying description, and (4) annotates every
segment that carries a face with the final map's entry for its name. -/
theorem parseLoop_spec :
    ∀ (segs : List Seg) (faces : List (String × Face))
      (annotated : List (Seg × Option Face)) (faces' : List (String × Face)),
      parseLoop segs faces = .ok (annotated, faces') →
      (annotated.map Prod.fst = segs) ∧
      (∀ n f, lookupFace faces n = some f → lookupFace faces' n = some f) ∧
      (∀ n, lookupFace faces n = none →
        lookupFace faces' n =
          Option.map (fun d => (⟨n, d, charSeed n⟩ : Face))
            (firstDescFor n (segs.map fun s => s.image_desc.getD ""))) ∧
      (∀ i si fi, annotated.get? i = some (si, some fi) →
        si.image_desc.getD "" ≠ "" ∧
        lookupFace faces' (charNameOf (si.image_desc.getD "")) = some fi) := by
  intro segs
  induction segs with
  | nil =>
    intro faces annotated faces' hp
    simp only [parseLoop, Except.ok.injEq, Prod.mk.injEq] at hp
    obtain ⟨ha, hf⟩ := hp
    subst ha; subst hf
    refine ⟨rfl, fun n f h => h, fun n h => by simp [firstDescFor, h], ?_⟩
    intro i si fi h
    simp [List.get?] at h
  | cons seg rest ih =>
    intro faces annotated faces' hp
    simp only [parseLoop] at hp
    rcases hval : validate_segment seg with e | u
    · rw [hval] at hp; exact Except.noConfusion hp
    · rcases u
      rw [hval] at hp
      by_cases hdesc : seg.image_desc.getD "" = ""
      · rw [if_pos hdesc, if_neg (validate_segment_ok_not_le hval)] at hp
        rcases hrec : parseLoop rest faces with e2 | pr2
        · rw [hrec] at hp; exact Except.noConfusion hp
        · rcases pr2 with ⟨ann2, faces2⟩
          rw [hrec] at hp
          simp only [Except.ok.injEq, Prod.mk.injEq] at hp
          obtain ⟨ha, hf⟩ := hp
          subst ha; subst hf
          obtain ⟨ihA, ihB, ihC, ihD⟩ := ih faces ann2 faces2 hrec
          refine ⟨by simp [ihA], ihB, ?_, ?_⟩
          · intro n hn
            rw [ihC n hn]
            simp [firstDescFor, hdesc]
          · intro i si fi h
            rcases i with _ | i
            · simp only [List.get?, Option.some.injEq, Prod.mk.injEq] at h
              exact absurd h.2 (by simp)
            · exact ihD i si fi h
      · rw [if_neg hdesc] at hp
        rcases hlk : lookupFace faces (charNameOf (seg.image_desc.getD "")) with _ | f
        · -- first occurrence of this character name: a new face is created
          rw [hlk] at hp
          by_cases hemp : pyStrip (charNameOf (seg.image_desc.getD "")) = ""
          · rw [if_pos hemp] at hp; exact Except.noConfusion hp
          · rw [if_neg hemp, if_neg (validate_segment_ok_not_le hval)] at hp
            rcases hrec : parseLoop rest
                (faces ++ [(charNameOf (seg.image_desc.getD ""),
                  ⟨charNameOf (seg.image_desc.getD ""), seg.image_desc.getD "",
                   charSeed (charNameOf (seg.image_desc.getD ""))⟩)]) with e2 | pr2
            · rw [hrec] at hp; exact Except.noConfusion hp
            · rcases pr2 with ⟨ann2, faces2⟩
              rw [hrec] at hp
              simp only [Except.ok.injEq, Prod.mk.injEq] at hp
              obtain ⟨ha, hf⟩ := hp
              subst ha; subst hf
              obtain ⟨ihA, ihB, ihC, ihD⟩ := ih _ ann2 faces2 hrec
              refine ⟨by simp [ihA], ?_, ?_, ?_⟩
              · intro n f hn
                exact ihB n f (lookupFace_append_some hn _)
              · intro n hn
                by_cases hnn : n = charNameOf (seg.image_desc.getD "")
                · have h1 : lookupFace
                      (faces ++ [(charNameOf (seg.image_desc.getD ""),
                        ⟨charNameOf (seg.image_desc.getD ""), seg.image_desc.getD "",
                         charSeed (charNameOf (seg.image_desc.getD ""))⟩)]) n =
                      some ⟨charNameOf (seg.image_desc.getD ""), seg.image_desc.getD "",
                        charSeed (charNameOf (seg.image_desc.getD ""))⟩ := by
                    rw [lookupFace_append_none hn]
                    simp [lookupFace, hnn]
                  rw [ihB _ _ h1, hnn]
                  simp [firstDescFor, hdesc]
                · have h1 : lookupFace
                      (faces ++ [(charNameOf (seg.image_desc.getD ""),
                        ⟨charNameOf (seg.image_desc.getD ""), seg.image_desc.getD "",
                         charSeed (charNameOf (seg.image_desc.getD ""))⟩)]) n = none := by
                    rw [lookupFace_append_none hn]
                    simp [lookupFace, Ne.symm hnn]
                  rw [ihC n h1]
                  simp [firstDescFor, hdesc, Ne.symm hnn]
              · intro i si fi h
                rcases i with _ | i
                · simp only [List.get?, Option.some.injEq, Prod.mk.injEq] at h
                  obtain ⟨hs, hfi⟩ := h
                  subst hs
                  subst hfi
                  refine ⟨hdesc, ?_⟩
                  apply ihB
                  rw [lookupFace_append_none hlk]
                  simp [lookupFace]
                · exact ihD i si fi h
        · -- the name is already registered: its face is reused unchanged
          rw [hlk] at hp
          by_cases hemp : pyStrip f.character = ""
          · rw [if_pos hemp] at hp; exact Except.noConfusion hp
          · rw [if_neg hemp, if_neg (validate_segment_ok_not_le hval)] at hp
            rcases hrec : parseLoop rest faces with e2 | pr2
            · rw [hrec] at hp; exact Except.noConfusion hp
            · rcases pr2 with ⟨ann2, faces2⟩
              rw [hrec] at hp
              simp only [Except.ok.injEq, Prod.mk.injEq] at hp
              obtain ⟨ha, hf⟩ := hp
              subst ha; subst hf
              obtain ⟨ihA, ihB, ihC, ihD⟩ := ih faces ann2 faces2 hrec
              refine ⟨by simp [ihA], ihB, ?_, ?_⟩
              · intro n hn
                have hnn : n ≠ charNameOf (seg.image_desc.getD "") := by
                  intro hx; rw [hx, hlk] at hn; exact Option.noConfusion hn
                rw [ihC n hn]
                simp [firstDescFor, hdesc, Ne.symm hnn]
              · intro i si fi h
                rcases i with _ | i
                · simp only [List.get?, Option.some.injEq, Prod.mk.injEq] at h
                  obtain ⟨hs, hfi⟩ := h
                  subst hs
                  subst hfi
                  exact ⟨hdesc, ihB _ _ hlk⟩
                · exact ihD i si fi h

/-- Looking up the key just written into the cache finds its value. -/
theorem lookupC_cacheInsert_self : ∀ (fc : FaceCache) (k : String × Nat) (v : String),
    lookupC (cacheInsert fc k v) k = some v := by
  intro fc k v
  induction fc with
  | nil => simp [cacheInsert, lookupC]
  | cons kv rest ih =>
    rcases kv with ⟨k2, v2⟩
    by_cases hk : k2 = k
    · simp [cacheInsert, hk, lookupC]
    · simp [cacheInsert, hk, lookupC, ih]

/-- Writing one key leaves every other key's lookup unchanged. -/
theorem lookupC_cacheInsert_other : ∀ (fc : FaceCache) (k : String × Nat) (v : String)
    (k2 : String × Nat), k2 ≠ k → lookupC (cacheInsert fc k v) k2 = lookupC fc k2 := by
  intro fc k v k2 h
  induction fc with
  | nil => simp [cacheInsert, lookupC, Ne.symm h]
  | cons kv rest ih =>
    rcases kv with ⟨k3, v3⟩
    by_cases hk : k3 = k
    · simp [cacheInsert, hk, lookupC, Ne.symm h]
    · simp [cacheInsert, hk, lookupC, ih]

/-- Inserting a usable path preserves cache validity. -/
theorem ValidCache_insert {fc : FaceCache} {k : String × Nat} {v : String}
    (h : ValidCache fc) (hv1 : v ≠ "") (hv2 : v ≠ "placeholder_image.png") :
    ValidCache (cacheInsert fc k v) := by
  intro k2 p hp
  by_cases hk : k2 = k
  · rw [hk, lookupC_cacheInsert_self] at hp
    cases Option.some.inj hp
    exact ⟨hv1, hv2⟩
  · rw [lookupC_cacheInsert_other fc k v k2 hk] at hp
    exact h k2 p hp

/-- The cache, call-list and image-path fields of `buildFinish` carry its
arguments through unchanged. -/
theorem buildFinish_fields (env : VideoEnv) (dur : ℚ) (fc' : Option FaceCache)
    (calls : List (String × Nat)) (p : String) (a : Option String) :
    (buildFinish env dur fc' calls p a).cache = fc' ∧
    (buildFinish env dur fc' calls p a).calls = calls ∧
    (buildFinish env dur fc' calls p a).imagePath = p := by
  rcases a with _ | x
  · rcases h : env.silent dur with _ | y
    · simp [buildFinish, h]
    · by_cases hm : env.muxOk <;> simp [buildFinish, h, hm]
  · by_cases hm : env.muxOk <;> simp [buildFinish, hm]

/-- The cache, call-list and image-path traces of the segment builder are
exactly those of its `resolveImage` step. -/
theorem generate_video_segment_fields (env : VideoEnv) (seg : Seg) (face : Option Face)
    (fc : Option FaceCache) (d : ℚ) :
    (generate_video_segment env seg face fc d).cache =
      (resolveImage env.image fc ((face.map Face.character).getD "")
        ((face.map Face.face_prompt).getD "") ((face.map Face.seed).getD 42)).2.1 ∧
    (generate_video_segment env seg face fc d).calls =
      (resolveImage env.image fc ((face.map Face.character).getD "")
        ((face.map Face.face_prompt).getD "") ((face.map Face.seed).getD 42)).2.2 ∧
    (∀ p, (resolveImage env.image fc ((face.map Face.character).getD "")
        ((face.map Face.face_prompt).getD "") ((face.map Face.seed).getD 42)).1 = .ok p →
      (generate_video_segment env seg face fc d).imagePath = p) := by
  simp only [generate_video_segment]
  rcases h : resolveImage env.image fc ((face.map Face.character).getD "")
      ((face.map Face.face_prompt).getD "") ((face.map Face.seed).getD 42) with ⟨res, fc', cs⟩
  rcases res with e | q
  · simp [h]
  · rcases h2 : generate_tts_audio env.tts (seg.narration.getD "") with e2 | ao
    · simp [h, h2]
    · simp [h, h2, buildFinish_fields]

/-- The image generator never raises: every branch returns a path (real
or placeholder). -/
theorem generate_character_image_ok (ienv : ImageEnv) (ic : ImageCommand) (sd : Nat) :
    ∃ p, generate_character_image ienv ic sd = .ok p := by
  rcases ic with s | ⟨ch, fp, sd2⟩
  · simp only [generate_character_image]
    by_cases h : pyStrip s = ""
    · exact ⟨"placeholder_image.png", by rw [if_pos h]⟩
    · rw [if_neg h]
      rcases hp : ienv.pipe s sd with e | q
      · exact ⟨"placeholder_image.png", rfl⟩
      · exact ⟨q, rfl⟩
  · simp only [generate_character_image]
    by_cases h : pyStrip (fp.getD (ch.getD "")) = ""
    · exact ⟨"placeholder_image.png", by rw [if_pos h]⟩
    · rw [if_neg h]
      rcases hp : ienv.pipe (fp.getD (ch.getD "")) (sd2.getD sd) with e | q
      · exact ⟨"placeholder_image.png", rfl⟩
      · exact ⟨q, rfl⟩

/-- The speech generator never raises: every branch returns a path or
`None`. -/
theorem generate_tts_audio_ok (tenv : TTSEnv) (t : String) :
    ∃ r, generate_tts_audio tenv t = .ok r := by
  unfold generate_tts_audio
  by_cases h : t = "" ∨ pyStrip t = ""
  · exact ⟨none, by rw [if_pos h]⟩
  · rw [if_neg h]
    rcases hb : tenv.bark t with e | path
    · exact ⟨none, rfl⟩
    · exact ⟨some path, rfl⟩

/-- The outer handlers of the background-audio generator never re-raise. -/
theorem bgFallback_ok (env : AudioEnv) (x : Except PyExc String) :
    ∃ r, bgFallback env x = .ok r := by
  rcases x with e | p
  · simp only [bgFallback]
    rcases h : env.silenceRun "silence_fallback.wav" 5 with e2 | q
    · exact ⟨none, rfl⟩
    · exact ⟨some q, rfl⟩
  · exact ⟨some p, rfl⟩

/-- The background-audio generator never raises. -/
theorem generate_background_audio_ok (aenv : AudioEnv) (a : String) :
    ∃ r, generate_background_audio aenv a = .ok r := by
  simp only [generate_background_audio]
  exact bgFallback_ok aenv _

/-- The first component of the image-resolution step is always a path
(the embedded image generator never raises). -/
theorem resolveImage_fst_ok (ienv : ImageEnv) (fc : Option FaceCache)
    (name prompt : String) (sd : Nat) :
    ∃ q, (resolveImage ienv fc name prompt sd).1 = .ok q := by
  obtain ⟨p, hp⟩ := generate_character_image_ok ienv (.str prompt) sd
  rcases fc with _ | fcache
  · exact ⟨p, by simp [resolveImage, hp]⟩
  · by_cases hname : name = ""
    · exact ⟨p, by simp [resolveImage, hname, hp]⟩
    · rcases hlk : lookupC fcache (name, sd) with _ | q
      · exact ⟨p, by simp [resolveImage, hname, hlk, hp]⟩
      · exact ⟨q, by simp [resolveImage, hname, hlk]⟩

/-- Resolution through a cache hit reuses the cached path with no
generator call and no cache change. -/
theorem resolveImage_cached (ienv : ImageEnv) (fc : FaceCache) (name prompt : String)
    (sd : Nat) (p : String) (hname : name ≠ "") (h : lookupC fc (name, sd) = some p) :
    resolveImage ienv (some fc) name prompt sd = (.ok p, some fc, []) := by
  simp [resolveImage, hname, h]

/-- Resolution on a cache miss whose generation succeeds with a usable
path performs one call and writes the path back. -/
theorem resolveImage_miss_ok (ienv : ImageEnv) (fc : FaceCache) (name prompt : String)
    (sd : Nat) (p : String) (hname : name ≠ "")
    (hmiss : lookupC fc (name, sd) = none)
    (hgen : generate_character_image ienv (.str prompt) sd = .ok p)
    (hp1 : p ≠ "") (hp2 : p ≠ "placeholder_image.png") :
    resolveImage ienv (some fc) name prompt sd =
      (.ok p, some (cacheInsert fc (name, sd) p), [(name, sd)]) := by
  simp [resolveImage, hname, hmiss, hgen, hp1, hp2]

/-- Resolution on a cache miss whose generation yields an unusable path
(empty or the placeholder) performs one call and leaves the cache
unchanged. -/
theorem resolveImage_miss_bad (ienv : ImageEnv) (fc : FaceCache) (name prompt : String)
    (sd : Nat) (p : String) (hname : name ≠ "")
    (hmiss : lookupC fc (name, sd) = none)
    (hgen : generate_character_image ienv (.str prompt) sd = .ok p)
    (hbad : p = "" ∨ p = "placeholder_image.png") :
    resolveImage ienv (some fc) name prompt sd = (.ok p, some fc, [(name, sd)]) := by
  rcases hbad with rfl | rfl <;> simp [resolveImage, hname, hmiss, hgen]

/-! ## The claims -/

set_option maxRecDepth 40000 in
/-- Claim C2, counterexample: at the concrete character name `"Alice"`,
the code's seed (`int(hexdigest, 16) % 2**32`, i.e. the digest's low 32
bits) differs from the first 32 bits of the digest that the claim
specifies — the digest of `"Alice"` starts with bytes `3b c5 10 62` and
ends with `69 9a 30 43`. -/
theorem charSeed_not_first32_counterexample :
    charSeed "Alice" = 1771712579 ∧ specSeedFirst32 "Alice" = 1002770530 ∧
    charSeed "Alice" ≠ specSeedFirst32 "Alice" := by
  refine ⟨by decide, by decide, by decide⟩

/-- Claim C2 (amended): the seed the identity resolver computes equals
SHA-256(name) interpreted as a big-endian unsigned integer reduced mod
2^32 — the last 32 bits of the digest, not the first 32 — and equal names
always yield equal seeds. -/
theorem charSeed_eq_digest_mod (name name2 : String) :
    charSeed name = beNat (SHA256.sha256 (utf8 name)) % 2 ^ 32 ∧
    (name = name2 → charSeed name = charSeed name2) := by
  constructor
  · unfold charSeed intHex hexdigest beNat
    exact congrArg (· % 2 ^ 32)
      (foldl_flatMap_byteHex _ (fun b hb => sha256_bytes_lt hb) 0)
  · intro h
    rw [h]

/-- Witness for C2's amended theorem at the name `"Alice"`. -/
theorem charSeed_eq_digest_mod_witness :
    charSeed "Alice" = beNat (SHA256.sha256 (utf8 "Alice")) % 2 ^ 32 ∧
    charSeed "Alice" = charSeed "Alice" :=
  ⟨(charSeed_eq_digest_mod "Alice" "Alice").1,
   (charSeed_eq_digest_mod "Alice" "Alice").2 rfl⟩

/-- Claim C3, counterexample: at the spec's own example
`{start: 5, end: 5}` (narration present), validation raises the builtin
`ValueError`, not an `InvalidTimingError` — no such class exists in the
code — so the claimed equivalence "raises InvalidTimingError iff
end <= start" fails at this input. -/
theorem validate_segment_not_invalidTimingError :
    validate_segment ⟨some 5, some 5, some "", none, none, none⟩ =
        .error (.valueError "End time must be greater than start time") ∧
    ¬ (validate_segment ⟨some 5, some 5, some "", none, none, none⟩ =
          .error .invalidTimingError ↔ (5 : ℚ) ≤ 5) := by
  refine ⟨by decide, by decide⟩

/-- Claim C3 (amended): for every raw segment record carrying the
`start`, `end` and `narration` fields with numeric timing values,
validation raises the builtin `ValueError` (message "End time must be
greater than start time") iff `end <= start`, and succeeds otherwise;
the check is pure, so success has no side effects. -/
theorem validate_segment_valueError_iff (s e : ℚ) (n : String) :
    (validate_segment ⟨some s, some e, some n, none, none, none⟩ =
        .error (.valueError "End time must be greater than start time") ↔ e ≤ s) ∧
    (s < e → validate_segment ⟨some s, some e, some n, none, none, none⟩ = .ok ()) := by
  constructor
  · constructor
    · intro hres
      by_contra hle
      simp [validate_segment, hle] at hres
    · intro hle
      simp [validate_segment, hle]
  · intro hlt
    simp [validate_segment, not_le.mpr hlt]

/-- Witness for C3's amended theorem at the spec's passing example
`{start: 0, end: 5}`. -/
theorem validate_segment_valueError_iff_witness :
    validate_segment ⟨some 0, some 5, some "", none, none, none⟩ = .ok () :=
  (validate_segment_valueError_iff 0 5 "").2 (by norm_num)

/-- Claim C7: for every segment with numeric start and end, the video
segment builder uses clip duration `end - start` when that difference is
positive — independent of the caller-supplied default duration — and
substitutes the caller-supplied default when the difference is
non-positive. -/
theorem video_segment_duration_spec (env : VideoEnv) (seg : Seg) (face : Option Face)
    (fc : Option FaceCache) (d s e : ℚ)
    (hs : seg.start = some s) (he : seg.end_ = some e) :
    (0 < e - s → (generate_video_segment env seg face fc d).duration = e - s) ∧
    (e - s ≤ 0 → (generate_video_segment env seg face fc d).duration = d) := by
  rw [generate_video_segment_duration_eq]
  constructor
  · intro h
    simp [clipDuration, hs, he, not_le.mpr h]
  · intro h
    simp [clipDuration, hs, he, h]

/-- Witness for C7 at the spec's round-trip example: start 2, end 7,
caller default 99 gives duration 5. -/
theorem video_segment_duration_spec_witness :
    0 < (7 : ℚ) - 2 ∧
    (generate_video_segment demoVideoEnv ⟨some 2, some 7, some "", none, none, none⟩
        none (some []) 99).duration = 5 :=
  ⟨by norm_num,
   ((video_segment_duration_spec demoVideoEnv ⟨some 2, some 7, some "", none, none, none⟩
        none (some []) 99 2 7 rfl rfl).1 (by norm_num)).trans (by norm_num)⟩

/-- Claim C8: assembling with an empty video-clip list returns the
designated failure sentinel (`no_video_segments.mp4`) and does not raise
— the check precedes the `try` body, and every exception inside it is
caught and turned into `None`, which this result is not — regardless of
the audio and image lists. -/
theorem assemble_empty_returns_sentinel (env : AsmEnv)
    (tts_audios background_audios character_images : List String) :
    assemble_video env [] tts_audios background_audios character_images =
      some .sentinel := rfl

/-- Claim C10: with an empty narration-audio list and any (in particular
non-empty) background-audio list, the background tracks are ignored: the
call returns exactly what it returns with both audio lists empty, no
audio track is produced on any successful output, and without character
images the output is the concatenated video copied unchanged. -/
theorem assemble_no_narration_ignores_background (env : AsmEnv)
    (video_segments background_audios character_images : List String) :
    assemble_video env video_segments [] background_audios character_images =
      assemble_video env video_segments [] [] character_images ∧
    (∀ m, assemble_video env video_segments [] background_audios character_images = some m →
      hasAudioTrack m = false) ∧
    (video_segments ≠ [] → env.concatOk = true →
      assemble_video env video_segments [] background_audios [] =
        some (.plain video_segments)) := by
  refine ⟨?_, ?_, ?_⟩
  · simp [assemble_video]
  · intro m hm
    by_cases hv : video_segments = []
    · rw [hv] at hm
      rw [assemble_empty_returns_sentinel] at hm
      simp only [Option.some.injEq] at hm
      simp [← hm, hasAudioTrack]
    · by_cases hc : env.concatOk
      · simp only [assemble_video, hv, hc, if_neg hv, Bool.not_true,
          Bool.false_eq_true, if_false, ne_eq, not_true_eq_false, false_and,
          not_false_eq_true, and_false] at hm
        exact assembleFinish_none_noAudio env video_segments character_images m hm
      · simp [assemble_video, hv, hc] at hm
  · intro hv hc
    simp [assemble_video, hv, hc, assembleFinish]

/-- Witness for C10 at one clip, one background track and no images. -/
theorem assemble_no_narration_ignores_background_witness :
    assemble_video ⟨true, true, true, true, true⟩ ["a.mp4"] [] ["b.wav"] [] =
      some (.plain ["a.mp4"]) :=
  (assemble_no_narration_ignores_background ⟨true, true, true, true, true⟩
    ["a.mp4"] ["b.wav"] []).2.2 (by decide) rfl

set_option maxRecDepth 40000 in
/-- Claim C1, counterexample: in a run parsed from two segments sharing
the character `"Alice"` and with every external call succeeding, the
image generator is invoked twice for the pair — once by the segment
builder (cache miss on the first segment) and once more by the
orchestrator's separate character-image stage, which does not consult the
face cache — refuting "at most one image-generation call per distinct
(character_name, seed) pair within a single pipeline run". -/
theorem pipeline_image_calls_twice_counterexample :
    parse_detailed_script demoSegs = .ok demoParse ∧
    countPair (pipelineImagePairs demoVideoEnv demoParse.video demoParse.image 5)
      ("Alice", 1771712579) = 2 ∧
    ¬ (countPair (pipelineImagePairs demoVideoEnv demoParse.video demoParse.image 5)
        ("Alice", 1771712579) ≤ 1) := by
  refine ⟨by decide, by decide, by decide⟩

/-- Claim C1 (amended): within the segment-building stage, when the
generator's call for a `(character, seed)` pair returns a usable image
(non-empty and not the placeholder), the pair is generated at most once
across two builds sharing the cache: the first build's success is written
back, and the second build reuses the cached path and issues no further
generator call.  (The claim's unconditional form fails because the
orchestrator's character-image stage issues one additional call per pair,
and a failed generation is not cached and may be retried.) -/
theorem video_stage_cache_at_most_once (env : VideoEnv) (cache : FaceCache)
    (seg1 seg2 : Seg) (f : Face) (d : ℚ) (p : String)
    (hname : f.character ≠ "")
    (hgen : generate_character_image env.image (.str f.face_prompt) f.seed = .ok p)
    (hp1 : p ≠ "") (hp2 : p ≠ "placeholder_image.png") :
    countPair ((generate_video_segment env seg1 (some f) (some cache) d).calls ++
        (generate_video_segment env seg2 (some f)
          (generate_video_segment env seg1 (some f) (some cache) d).cache d).calls)
      (f.character, f.seed) ≤ 1 ∧
    (lookupC cache (f.character, f.seed) = none →
      (generate_video_segment env seg1 (some f) (some cache) d).calls =
        [(f.character, f.seed)] ∧
      (generate_video_segment env seg2 (some f)
        (generate_video_segment env seg1 (some f) (some cache) d).cache d).calls = [] ∧
      (generate_video_segment env seg2 (some f)
        (generate_video_segment env seg1 (some f) (some cache) d).cache d).imagePath = p) := by
  obtain ⟨hc1, hl1, hi1⟩ := generate_video_segment_fields env seg1 (some f) (some cache) d
  simp only [Option.map_some', Option.getD_some] at hc1 hl1 hi1
  rcases hlk : lookupC cache (f.character, f.seed) with _ | q
  · -- cache miss on the first build: one call, the path is written back
    simp only [resolveImage_miss_ok env.image cache f.character f.face_prompt f.seed p
        hname hlk hgen hp1 hp2] at hc1 hl1
    rw [hc1]
    obtain ⟨hc2, hl2, hi2⟩ := generate_video_segment_fields env seg2 (some f)
        (some (cacheInsert cache (f.character, f.seed) p)) d
    simp only [Option.map_some', Option.getD_some] at hc2 hl2 hi2
    simp only [resolveImage_cached env.image (cacheInsert cache (f.character, f.seed) p)
        f.character f.face_prompt f.seed p hname
        (lookupC_cacheInsert_self cache (f.character, f.seed) p)] at hl2 hi2
    refine ⟨?_, fun _ => ⟨hl1, hl2, hi2 p rfl⟩⟩
    rw [hl1, hl2]
    simp [countPair]
  · -- already cached: neither build calls the generator
    simp only [resolveImage_cached env.image cache f.character f.face_prompt f.seed q
        hname hlk] at hc1 hl1
    rw [hc1]
    obtain ⟨hc2, hl2, hi2⟩ := generate_video_segment_fields env seg2 (some f)
        (some cache) d
    simp only [Option.map_some', Option.getD_some] at hc2 hl2 hi2
    simp only [resolveImage_cached env.image cache f.character f.face_prompt f.seed q
        hname hlk] at hl2
    refine ⟨?_, fun hnone => Option.noConfusion hnone⟩
    rw [hl1, hl2]
    simp [countPair]

/-- Witness for C1's amended theorem: a fresh cache, two segments with
the shared demo face, and an environment whose generation succeeds. -/
theorem video_stage_cache_at_most_once_witness :
    (generate_video_segment demoVideoEnv demoSeg1 (some demoFace) (some []) 5).calls =
      [("Alice", 1771712579)] ∧
    (generate_video_segment demoVideoEnv demoSeg2 (some demoFace)
      (generate_video_segment demoVideoEnv demoSeg1 (some demoFace) (some []) 5).cache 5).calls =
      [] ∧
    (generate_video_segment demoVideoEnv demoSeg2 (some demoFace)
      (generate_video_segment demoVideoEnv demoSeg1 (some demoFace) (some []) 5).cache 5).imagePath =
      "img.png" :=
  (video_stage_cache_at_most_once demoVideoEnv [] demoSeg1 demoSeg2 demoFace 5 "img.png"
    (by decide) (by decide) (by decide) (by decide)).2 rfl

set_option maxRecDepth 40000 in
/-- Claim C4: within one successful parse, all segments whose image
description yields the same character name share exactly one identity
(equal faces, hence the same seed and prompt); each face carries its
name's hash seed, and its prompt is the full description text of the
first segment in which that name occurred. -/
theorem parse_shared_character_identity (segs : List Seg) (pr : ParseResult)
    (hp : parse_detailed_script segs = .ok pr) :
    (∀ i j si sj fi fj,
        pr.video.get? i = some (si, some fi) → pr.video.get? j = some (sj, some fj) →
        charNameOf (si.image_desc.getD "") = charNameOf (sj.image_desc.getD "") →
        fi = fj) ∧
    (∀ i si fi, pr.video.get? i = some (si, some fi) →
        fi.character = charNameOf (si.image_desc.getD "") ∧
        fi.seed = charSeed fi.character ∧
        firstDescFor fi.character (segs.map fun s => s.image_desc.getD "") =
          some fi.face_prompt) := by
  simp only [parse_detailed_script] at hp
  by_cases hseg : segs = []
  · rw [if_pos hseg] at hp; exact Except.noConfusion hp
  · rw [if_neg hseg] at hp
    rcases hrec : parseLoop segs [] with e | pr2
    · rw [hrec] at hp; exact Except.noConfusion hp
    · rcases pr2 with ⟨ann, faces⟩
      rw [hrec] at hp
      obtain rfl := Except.ok.inj hp
      obtain ⟨-, ihB, ihC, ihD⟩ := parseLoop_spec segs [] ann faces hrec
      refine ⟨?_, ?_⟩
      · intro i j si sj fi fj hi hj hnameq
        have h1 := (ihD i si fi hi).2
        have h2 := (ihD j sj fj hj).2
        rw [hnameq] at h1
        rw [h1] at h2
        exact Option.some.inj h2
      · intro i si fi hi
        have hd := ihD i si fi hi
        have hc := ihC (charNameOf (si.image_desc.getD "")) rfl
        rw [hd.2] at hc
        rcases hF : firstDescFor (charNameOf (si.image_desc.getD ""))
            (segs.map fun s => s.image_desc.getD "") with _ | d0
        · rw [hF] at hc
          exact absurd hc (by simp)
        · rw [hF] at hc
          simp only [Option.map_some', Option.some.injEq] at hc
          subst hc
          exact ⟨rfl, rfl, hF⟩

set_option maxRecDepth 40000 in
/-- Witness for C4 at the two-segment demo script: the shared face's name
is the colon prefix of the first description, its seed the hash seed of
the name, and its prompt the first occurrence's full description. -/
theorem parse_shared_character_identity_witness :
    demoFace.character = charNameOf (demoSeg1.image_desc.getD "") ∧
    demoFace.seed = charSeed demoFace.character ∧
    firstDescFor demoFace.character (demoSegs.map fun s => s.image_desc.getD "") =
      some demoFace.face_prompt :=
  (parse_shared_character_identity demoSegs demoParse (by decide)).2 0 demoSeg1 demoFace
    (by decide)

/-- Claim C5: for every input and every outcome of the external engines,
none of the three artifact generators raises to its caller — each returns
a value (a usable path, a fallback path or placeholder sentinel, or
`None` as an explicit missing signal). -/
theorem generators_never_raise (tenv : TTSEnv) (ienv : ImageEnv) (aenv : AudioEnv)
    (tts_command audio_command : String) (image_command : ImageCommand) (sd : Nat) :
    (∃ r, generate_tts_audio tenv tts_command = .ok r) ∧
    (∃ q, generate_character_image ienv image_command sd = .ok q) ∧
    (∃ r, generate_background_audio aenv audio_command = .ok r) :=
  ⟨generate_tts_audio_ok tenv tts_command,
   generate_character_image_ok ienv image_command sd,
   generate_background_audio_ok aenv audio_command⟩

/-- Claim C6: when speech generation returns failure (`None`) for a
segment, the video segment builder still returns a valid clip path
without raising (given the silent-clip synthesis and the final mux
succeed), substituting silent audio requested at exactly the clip's
duration. -/
theorem video_segment_silent_fallback (env : VideoEnv) (seg : Seg) (face : Option Face)
    (fc : Option FaceCache) (d : ℚ) (sp : String)
    (htts : generate_tts_audio env.tts (seg.narration.getD "") = .ok none)
    (hsil : env.silent (clipDuration seg d) = some sp)
    (hmux : env.muxOk = true) :
    (generate_video_segment env seg face fc d).result = .ok env.outPath ∧
    (generate_video_segment env seg face fc d).audioPath = some sp ∧
    (generate_video_segment env seg face fc d).duration = clipDuration seg d := by
  obtain ⟨q, hq⟩ := resolveImage_fst_ok env.image fc ((face.map Face.character).getD "")
      ((face.map Face.face_prompt).getD "") ((face.map Face.seed).getD 42)
  simp only [generate_video_segment]
  rcases hres : resolveImage env.image fc ((face.map Face.character).getD "")
      ((face.map Face.face_prompt).getD "") ((face.map Face.seed).getD 42) with ⟨res, fc', cs⟩
  rw [hres] at hq
  simp only at hq
  subst hq
  rw [htts]
  simp [buildFinish, hsil, hmux]

/-- Witness for C6: a concrete environment whose speech engine fails;
the build still returns the output path with the silent clip attached. -/
theorem video_segment_silent_fallback_witness :
    (generate_video_segment demoNoSpeechVideoEnv demoSeg1 (some demoFace) (some []) 5).result =
      .ok "out.mp4" ∧
    (generate_video_segment demoNoSpeechVideoEnv demoSeg1 (some demoFace) (some []) 5).audioPath =
      some "silent.wav" :=
  ⟨(video_segment_silent_fallback demoNoSpeechVideoEnv demoSeg1 (some demoFace) (some []) 5
      "silent.wav" (by decide) rfl rfl).1,
   (video_segment_silent_fallback demoNoSpeechVideoEnv demoSeg1 (some demoFace) (some []) 5
      "silent.wav" (by decide) rfl rfl).2.1⟩

/-- Claim C9: the face cache never acquires an unusable entry — starting
from a valid cache, the cache after a build is valid (every stored path
non-empty and different from the placeholder sentinel), and when the
generator's result for the segment's face is the placeholder or empty,
the cache is left entirely unchanged. -/
theorem face_cache_no_placeholder_invariant (env : VideoEnv) (seg : Seg)
    (face : Option Face) (cache : FaceCache) (d : ℚ) (h : ValidCache cache) :
    (∀ fc', (generate_video_segment env seg face (some cache) d).cache = some fc' →
      ValidCache fc') ∧
    (∀ e, generate_character_image env.image (.str ((face.map Face.face_prompt).getD ""))
        ((face.map Face.seed).getD 42) = .ok e →
      (e = "" ∨ e = "placeholder_image.png") →
      (generate_video_segment env seg face (some cache) d).cache = some cache) := by
  obtain ⟨hc, -, -⟩ := generate_video_segment_fields env seg face (some cache) d
  constructor
  · intro fc' hfc'
    rw [hc] at hfc'
    by_cases hname : (face.map Face.character).getD "" = ""
    · simp only [resolveImage, if_pos hname] at hfc'
      cases Option.some.inj hfc'
      exact h
    · rcases hlk : lookupC cache ((face.map Face.character).getD "",
          (face.map Face.seed).getD 42) with _ | q
      · obtain ⟨p, hp⟩ := generate_character_image_ok env.image
            (.str ((face.map Face.face_prompt).getD "")) ((face.map Face.seed).getD 42)
        by_cases hval : p ≠ "" ∧ p ≠ "placeholder_image.png"
        · rw [resolveImage_miss_ok env.image cache ((face.map Face.character).getD "")
              ((face.map Face.face_prompt).getD "") ((face.map Face.seed).getD 42) p
              hname hlk hp hval.1 hval.2] at hfc'
          cases Option.some.inj hfc'
          exact ValidCache_insert h hval.1 hval.2
        · have hbad : p = "" ∨ p = "placeholder_image.png" := by
            by_cases h1 : p = ""
            · exact Or.inl h1
            · exact Or.inr (by_contra fun h2 => hval ⟨h1, h2⟩)
          rw [resolveImage_miss_bad env.image cache ((face.map Face.character).getD "")
              ((face.map Face.face_prompt).getD "") ((face.map Face.seed).getD 42) p
              hname hlk hp hbad] at hfc'
          cases Option.some.inj hfc'
          exact h
      · rw [resolveImage_cached env.image cache ((face.map Face.character).getD "")
            ((face.map Face.face_prompt).getD "") ((face.map Face.seed).getD 42) q
            hname hlk] at hfc'
        cases Option.some.inj hfc'
        exact h
  · intro e hgen hbad
    rw [hc]
    by_cases hname : (face.map Face.character).getD "" = ""
    · simp [resolveImage, hname]
    · rcases hlk : lookupC cache ((face.map Face.character).getD "",
          (face.map Face.seed).getD 42) with _ | q
      · rw [resolveImage_miss_bad env.image cache ((face.map Face.character).getD "")
            ((face.map Face.face_prompt).getD "") ((face.map Face.seed).getD 42) e
            hname hlk hgen hbad]
      · rw [resolveImage_cached env.image cache ((face.map Face.character).getD "")
            ((face.map Face.face_prompt).getD "") ((face.map Face.seed).getD 42) q
            hname hlk]

/-- Witness for C9: a failing image pipeline (so the generator returns
the placeholder) leaves an initially empty cache unchanged. -/
theorem face_cache_no_placeholder_invariant_witness :
    (generate_video_segment demoFailImageVideoEnv demoSeg1 (some demoFace) (some []) 5).cache =
      some [] :=
  (face_cache_no_placeholder_invariant demoFailImageVideoEnv demoSeg1 (some demoFace) [] 5
      (fun k p hp => Option.noConfusion hp)).2
    "placeholder_image.png" (by decide) (Or.inr rfl)

/-- Sanity anchor: the FIPS 180-4 test vector for the empty message. -/
theorem sha256_empty_vector : hexdigest (SHA256.sha256 []) =
    "e3b0c44298fc1c149afbf4c8996fb92427ae41e4649b934ca495991b7852b855" := by
  decide

/-- Sanity anchor: the FIPS 180-4 test vector for the message "abc". -/
theorem sha256_abc_vector : hexdigest (SHA256.sha256 (utf8 "abc")) =
    "ba7816bf8f01cfea414140de5dae2223b00361a396177a9cb410ff61f20015ad" := by
  decide

end VidGen
